import Mathlib

/-!
Verification of the whatsapp-bot channel-resilience and delivery engine.

Shallow embedding of the JavaScript sources:
- `src/src/services/connectionMonitor.js` (ConnectionMonitor and the
  whatsapp-web.js WhatsAppService appended in the same file),
- `src/src/utils/rateLimiter.js` (RateLimiter),
- `src/src/services/autoReplyService.js` (AutoReplyService),
- `src/unnamed/part_002` (the Baileys WhatsAppService and
  BusinessHoursService).

Machine integers are modelled as `Nat` (JavaScript numbers stay far below
2^53 here, so no overflow is reachable); timestamps are `Nat` milliseconds
(or seconds where the source uses seconds); fallible JavaScript code is
modelled in `Except String` with `String` the error message, and every
`try`/`catch` of the source is an explicit `match` on that `Except`.
External calls (transport, chat queries, clocks) are supplied by explicit
environment records so that one run of a function is one choice of
environment.
-/

/- JavaScript `haystack.includes(needle)` on strings. -/
def includesAux (needle : List Char) : List Char → Bool
  | [] => needle.isEmpty
  | c :: rest => needle.isPrefixOf (c :: rest) || includesAux needle rest

def includesB (hay needle : String) : Bool :=
  includesAux needle.data hay.data

/- JavaScript `String.prototype.replace` with a plain-string pattern:
replaces only the first occurrence. -/
def replaceFirstAux (rep pat : List Char) : List Char → List Char
  | [] => []
  | c :: rest =>
    if pat.isPrefixOf (c :: rest) then rep ++ (c :: rest).drop pat.length
    else c :: replaceFirstAux rep pat rest

def jsReplace (s pat rep : String) : String :=
  ⟨replaceFirstAux rep.data pat.data s.data⟩

/- JavaScript string coercion of a possibly-undefined value, as performed
by `.replace(pat, value)` when `value` is `undefined`. -/
def jsStrOfOption : Option String → String
  | some s => s
  | none => "undefined"

/-!
## WhatsAppService.formatSpanishNumber
(connectionMonitor.js lines 548-577; identical logic in part_002 lines
278-310 apart from an extra `.replace(".0", "")`.)
-/

/- `String.prototype.startsWith` and `substring(n)`, written over the
character list so that they compute by structural recursion. -/
def jsStartsWith (s pre : String) : Bool :=
  pre.data.isPrefixOf s.data

def jsDrop (s : String) (n : Nat) : String :=
  ⟨s.data.drop n⟩

/- The regex `/[\s\-\(\)\.]/g`: strip every whitespace character, hyphen,
parenthesis and dot. -/
def stripSeparators (phone : String) : String :=
  ⟨phone.data.filter fun c =>
    !(c.isWhitespace || c = '-' || c = '(' || c = ')' || c = '.')⟩

/- The `cleaned` variable of `formatSpanishNumber` after the prefix fixup
chain (lines 551-565). -/
def cleanedNumber (phone : String) : String :=
  let cleaned := stripSeparators phone
  if jsStartsWith cleaned "+346" then jsDrop cleaned 1
  else if jsStartsWith cleaned "34" then cleaned
  else if jsStartsWith cleaned "6" || jsStartsWith cleaned "7"
      || jsStartsWith cleaned "9" then "34" ++ cleaned
  else if jsStartsWith cleaned "0034" then jsDrop cleaned 2
  else cleaned

def formatSpanishNumber (phone : String) : Except String String :=
  if (cleanedNumber phone).length ≠ 11
      || !jsStartsWith (cleanedNumber phone) "34" then
    Except.error ("Invalid Spanish number format: " ++ phone)
  else
    Except.ok (cleanedNumber phone)

/- The property the claim words state for successful results: exactly the
country code "34" followed by 9 digits. -/
def specCountryCodePlus9Digits (s : String) : Bool :=
  jsStartsWith s "34" && s.length = 11 &&
    (jsDrop s 2).data.all Char.isDigit

/-!
## RateLimiter (rateLimiter.js)

`waitIfNeeded` reads the clock (`now`), waits `delayMs - (now - last)` ms
when the elapsed time is below the configured delay, then records a fresh
clock reading (`now2`). One call is observed as the triple
`(delay, now, now2)`: `delay` is the delay configured at that call (it can
be changed between calls by `setDelay`), `now` the first `Date.now()`
reading and `now2` the second.  The physical constraints are that the
clock is monotone (`last ≤ now`) and that `setTimeout(w)` resumes no
earlier than `now + w` (`now + waitTime ≤ now2`).
-/

structure CallObs where
  delay : Nat
  now : Nat
  now2 : Nat

def waitTime (last delay now : Nat) : Nat :=
  if now - last < delay then delay - (now - last) else 0

/- The recorded `lastExecutionTime` after each call of a sequence, starting
from recorded value `last`. -/
def recordsFrom : Nat → List CallObs → List Nat
  | _, [] => []
  | _, c :: cs => c.now2 :: recordsFrom c.now2 cs

/- The physical validity of an observed call sequence. -/
def validFrom (last : Nat) : List CallObs → Prop
  | [] => True
  | c :: cs =>
    last ≤ c.now ∧ c.now + waitTime last c.delay c.now ≤ c.now2 ∧
      validFrom c.now2 cs

/- The claimed spacing: each recorded timestamp is at least the delay
configured at that (later) call after the previous recorded timestamp. -/
def spacedFrom (last : Nat) : List CallObs → Prop
  | [] => True
  | c :: cs => last + c.delay ≤ c.now2 ∧ spacedFrom c.now2 cs

/-!
## ConnectionMonitor (connectionMonitor.js lines 3-327)

State restricted to the fields the claims are about: the two
WhatsAppService flags the monitor reads and the monitor's own reconnection
bookkeeping.
-/

structure MonState where
  isReady : Bool
  isStable : Bool
  isReconnecting : Bool
  reconnectionAttempts : Nat
deriving DecidableEq

def maxReconnectionAttempts : Nat := 5
def reconnectionDelayMs : Nat := 30000
def maxReconnectionDelayMs : Nat := 300000

/- `initiateReconnection` (lines 162-232): returns the updated state and
the delay of the scheduled attempt, if one was scheduled. -/
def initiateReconnection (s : MonState) : MonState × Option Nat :=
  if s.isReconnecting then (s, none)
  else if s.reconnectionAttempts ≥ maxReconnectionAttempts then (s, none)
  else
    let attempts := s.reconnectionAttempts + 1
    let delay :=
      min (reconnectionDelayMs * 2 ^ (attempts - 1)) maxReconnectionDelayMs
    ({ s with reconnectionAttempts := attempts, isReconnecting := true },
      some delay)

/- The `auth_failure` listener (lines 69-84) combined with the
WhatsAppService `auth_failure` handler (which clears
isReady/isConnecting/isStable): notifies, then sets
`isReconnecting = false`; it does not itself schedule a reconnection. -/
def onAuthFailure (s : MonState) : MonState :=
  { s with isReady := false, isStable := false, isReconnecting := false }

/- The first branch of `performHealthCheck` (lines 108-126): a health check
calls `initiateReconnection` whenever the service is not ready/stable and
no reconnection is in flight. -/
def healthCheckInitiates (s : MonState) : Bool :=
  (!s.isReady || !s.isStable) && !s.isReconnecting

/- The monitor state right after an `auth_failure` event received while the
session was stable and no reconnection was running. -/
def postAuthFailure : MonState :=
  onAuthFailure { isReady := true, isStable := true, isReconnecting := false,
                  reconnectionAttempts := 0 }

/-!
A run of consecutive disconnect / health-failure signals with no
intervening Stable transition.  A `signal` is a `disconnected` event or a
failed health check (both guard on `!isReconnecting` and then call
`initiateReconnection`, which re-checks the guard, so the composite effect
is `initiateReconnection`); `attemptFailed` is the catch branch of the
scheduled attempt (lines 208-230), which clears `isReconnecting` and — via
the 5 s `setTimeout` — is followed by another `signal`.  No `ready` event
occurs in such a run, so the counter is never reset.
-/

inductive RunEvent
  | signal
  | attemptFailed
deriving DecidableEq

def runStep (s : MonState) : RunEvent → MonState × Option Nat
  | .signal => initiateReconnection s
  | .attemptFailed => ({ s with isReconnecting := false }, none)

/- The delays scheduled along a run. -/
def runDelays (s : MonState) : List RunEvent → List Nat
  | [] => []
  | e :: es =>
    match runStep s e with
    | (s', none) => runDelays s' es
    | (s', some d) => d :: runDelays s' es

/- Constructor state of ConnectionMonitor (lines 4-17). -/
def initMon : MonState :=
  { isReady := false, isStable := false, isReconnecting := false,
    reconnectionAttempts := 0 }

/- All monitor-level events, for the counter-reset invariant: the
`disconnected` listener (lines 49-66), the `auth_failure` listener, the
`ready` listener (lines 87-105, which resets the counter), a failed health
check, and the failure branch of a scheduled attempt. -/
inductive MonEvent
  | disconnected
  | authFailure
  | ready
  | healthSignal
  | attemptFailed
deriving DecidableEq

def monStep (s : MonState) : MonEvent → MonState
  | .disconnected =>
    let s1 := { s with isReady := false, isStable := false }
    if !s1.isReconnecting then (initiateReconnection s1).1 else s1
  | .authFailure => onAuthFailure s
  | .ready =>
    { s with isReady := true, reconnectionAttempts := 0,
             isReconnecting := false }
  | .healthSignal =>
    if healthCheckInitiates s then (initiateReconnection s).1 else s
  | .attemptFailed => { s with isReconnecting := false }

/-!
## Baileys WhatsAppService `connection.update` handler
(part_002 lines 100-170)
-/

structure BSState where
  isReady : Bool
  isConnecting : Bool
  isStable : Bool
  reconnectAttempts : Nat
deriving DecidableEq

/- `DisconnectReason.loggedOut` of the Baileys library. -/
def loggedOutCode : Nat := 401

inductive ConnUpdate
  | connClose (statusCode : Option Nat)
  | connOpen
deriving DecidableEq

def maxReconnectAttempts : Nat := 5

/- Effect of one `connection.update` event on the service state.  The
`close` branch clears the flags, then: logged-out performs no retry
bookkeeping; stream error 515 and every other reconnectable close
increment `reconnectAttempts` (the `setTimeout` re-initialisation itself
is outside this state step).  The `open` branch sets ready/stable and
resets the counter. -/
def onConnectionUpdate (s : BSState) : ConnUpdate → BSState
  | .connClose statusCode =>
    let s1 := { s with isReady := false, isStable := false,
                       isConnecting := false }
    if statusCode = some loggedOutCode then s1
    else if statusCode = some 515 then
      { s1 with reconnectAttempts := s1.reconnectAttempts + 1 }
    else
      { s1 with reconnectAttempts := s1.reconnectAttempts + 1 }
  | .connOpen =>
    { s with isReady := true, isConnecting := false, isStable := true,
             reconnectAttempts := 0 }

/-!
## WhatsAppService.sendMessage and its collaborators
(connectionMonitor.js lines 548-784)

The environment carries one `Except`-valued entry per external call site:
`ensureStable1` is `sendMessage`'s own `ensureStableConnection` call,
`ensureStableV` the one at the start of `validateWhatsAppNumber`,
`getNumberId n` the n-th `client.getNumberId` race (returning the
serialized chat id when the number exists, `none` otherwise),
`ensureStableRetry n` the `ensureStableConnection` retry between
validation attempts, `sendCall` the raced `client.sendMessage` (returning
`none` when the library resolves with `undefined`), `getChat` the
`client.getChatById` used by the verification heuristic, and `nowBefore`
the `Date.now()` reading taken just before sending.
-/

structure Ack where
  id : Option String

structure LastMsg where
  body : Option String
  timestamp : Nat
  id : Option String

structure ChatTail where
  lastMessage : Option LastMsg

structure VResult where
  valid : Bool
  formattedNumber : Option String
  chatId : Option String
  error : Option String

inductive SendResult
  | sent (formattedNumber : Option String) (messageId : String)
      (verificationMethod : String)
  | noWhatsapp (error : Option String)
  | sendError (error : String)

structure SendEnv where
  ensureStable1 : Except String Unit
  ensureStableV : Except String Unit
  getNumberId : Nat → Except String (Option String)
  ensureStableRetry : Nat → Except String Unit
  sendCall : Except String (Option Ack)
  getChat : Except String ChatTail
  nowBefore : Nat

/- The `while (attempts < maxAttempts)` loop of `validateWhatsAppNumber`
(lines 589-638).  `fuel` is the number of remaining iterations
(`3 - attempts`); exiting the loop returns `undefined` (`none`), which is
unreachable from `attempts = 0`, `fuel = 3`. -/
def validateAttempts (env : SendEnv) (fmt : String) :
    Nat → Nat → Except String (Option VResult)
  | _, 0 => Except.ok none
  | attempts, fuel + 1 =>
    match env.getNumberId attempts with
    | Except.ok (some chatId) =>
      Except.ok (some ⟨true, some fmt, some chatId, none⟩)
    | Except.ok none =>
      Except.ok
        (some ⟨false, some fmt, none, some "Number not registered on WhatsApp"⟩)
    | Except.error e =>
      if attempts + 1 ≥ 3 then Except.error e
      else
        match env.ensureStableRetry (attempts + 1) with
        | Except.error e2 => Except.error e2
        | Except.ok _ => validateAttempts env fmt (attempts + 1) fuel

/- Body of the outer `try` of `validateWhatsAppNumber` (lines 579-638). -/
def validateBody (env : SendEnv) (phone : String) :
    Except String (Option VResult) :=
  match env.ensureStableV with
  | Except.error e => Except.error e
  | Except.ok _ =>
    match formatSpanishNumber phone with
    | Except.error e => Except.error e
    | Except.ok fmt => validateAttempts env fmt 0 3

/- `validateWhatsAppNumber` with its catch (lines 639-648): any thrown
error becomes `{valid: false, formattedNumber: null, error}`. -/
def validateWhatsAppNumber (env : SendEnv) (phone : String) :
    Option VResult :=
  match validateBody env phone with
  | Except.ok v => v
  | Except.error e => some ⟨false, none, none, some e⟩

/- `message.split("\n")[0].substring(0, 20)` (line 709). -/
def firstLine20 (message : String) : String :=
  ((message.splitOn "\n").headD "").take 20

/- The `isOurMessage` conjunction (lines 705-711).  `lastMessage.body &&`
makes an empty body falsy; the timestamp test
`lastMessage.timestamp >= Math.floor(before / 1000) - 5` is stated with
truncated `Nat` subtraction, which agrees with the integer test because a
timestamp is never negative. -/
def isOurMessage (chat : ChatTail) (message : String) (beforeTs : Nat) :
    Bool :=
  match chat.lastMessage with
  | none => false
  | some lm =>
    match lm.body with
    | none => false
    | some b =>
      (b != "") && includesB b (firstLine20 message) &&
        decide (beforeTs / 1000 - 5 ≤ lm.timestamp)

/- `lastMessage.id?._serialized || "verified"` (line 718). -/
def lastMsgId (chat : ChatTail) : String :=
  match chat.lastMessage with
  | some lm => lm.id.getD "verified"
  | none => "verified"

/- The verification block (lines 694-750): the inner `try` around
`getChatById` together with its `catch`.  Returns the result the block
`return`s, or `none` when control falls through to the code after it. -/
def verificationOutcome (env : SendEnv) (message : String)
    (fmtNum : Option String) (sentMessage : Option Ack) :
    Option SendResult :=
  match env.getChat with
  | Except.ok chat =>
    if isOurMessage chat message env.nowBefore then
      some (SendResult.sent fmtNum (lastMsgId chat) "chat_verification")
    else if sentMessage.isNone then
      some (SendResult.sent fmtNum "assumed_success" "no_error_assumption")
    else none
  | Except.error _ =>
    if sentMessage.isNone then
      some (SendResult.sent fmtNum "unverified_success" "send_no_error")
    else none

/- Body of the inner `try` of `sendMessage` (lines 672-764): the raced
send, the verification block, the `normal_response` fallback and the final
`throw new Error("Could not verify message delivery")`. -/
def sendInner (env : SendEnv) (message : String) (fmtNum : Option String) :
    Except String SendResult :=
  match env.sendCall with
  | Except.error e => Except.error e
  | Except.ok sentMessage =>
    match verificationOutcome env message fmtNum sentMessage with
    | some r => Except.ok r
    | none =>
      match sentMessage with
      | some ack =>
        Except.ok
          (SendResult.sent fmtNum (ack.id.getD "normal_response")
            "normal_response")
      | none => Except.error "Could not verify message delivery"

/- Body of the outer `try` of `sendMessage` (lines 650-772).  When the
validation loop exits returning `undefined` (unreachable), reading
`validation.valid` throws a TypeError, modelled by the `none` branch. -/
def sendMessageBody (env : SendEnv) (phone message : String) :
    Except String SendResult :=
  match env.ensureStable1 with
  | Except.error e => Except.error e
  | Except.ok _ =>
    match validateWhatsAppNumber env phone with
    | none =>
      Except.error "TypeError: cannot read properties of undefined"
    | some v =>
      if v.valid then
        match sendInner env message v.formattedNumber with
        | Except.ok r => Except.ok r
        | Except.error e => Except.ok (SendResult.sendError e)
      else Except.ok (SendResult.noWhatsapp v.error)

/- `sendMessage` with its outermost catch (lines 773-783): every escaping
error becomes a `SEND_ERROR` result. -/
def sendMessage (env : SendEnv) (phone message : String) :
    Except String SendResult :=
  match sendMessageBody env phone message with
  | Except.ok r => Except.ok r
  | Except.error e => Except.ok (SendResult.sendError e)

/-!
## BusinessHoursService (part_002 lines 482-743)

Calendar model: a date is an absolute day index (`Nat`); `getDay()` is the
index modulo 7 with 0 = Sunday, matching the JavaScript convention, so
consecutive indices are consecutive calendar days.  A time of day is the
`hours * 100 + minutes` number the source computes.  Holidays and
exceptional closures are lists of `(day index, name)` pairs (the source's
`YYYY-MM-DD` string tables keyed the same way).  `fmtLong` stands for the
locale formatting `formatDateLong`.
-/

structure Templates where
  holiday : String
  weekendOrExtended : String
  outOfHours : String

structure BHConfig where
  weekly : Fin 7 → Option (Nat × Nat)
  holidays : List (Nat × String)
  exceptionalClosures : List (Nat × String)
  templates : Templates
  fmtLong : Nat → String

structure BHDateTime where
  day : Nat
  time : Nat

structure BHStatus where
  isOpen : Bool
  reason : Option String
  holidayName : Option String

def dow (day : Nat) : Fin 7 := ⟨day % 7, Nat.mod_lt day (by omega)⟩

/- `isHoliday` (lines 577-593). -/
def isHolidayB (cfg : BHConfig) (day : Nat) : Bool :=
  cfg.holidays.any (fun h => h.1 == day) ||
    cfg.exceptionalClosures.any (fun c => c.1 == day)

/- `getHolidayName` (lines 598-612). -/
def getHolidayNameB (cfg : BHConfig) (day : Nat) : String :=
  match cfg.holidays.find? (fun h => h.1 == day) with
  | some h => h.2
  | none =>
    match cfg.exceptionalClosures.find? (fun c => c.1 == day) with
    | some c => c.2
    | none => "Dia festivo"

/- `isBusinessHours` (lines 525-572). -/
def isBusinessHoursB (cfg : BHConfig) (dt : BHDateTime) : BHStatus :=
  if isHolidayB cfg dt.day then
    ⟨false, some "holiday", some (getHolidayNameB cfg dt.day)⟩
  else
    match cfg.weekly (dow dt.day) with
    | none => ⟨false, some "weekend", none⟩
    | some (s, e) =>
      if s ≤ dt.time && dt.time < e then ⟨true, none, none⟩
      else ⟨false, some (if dt.time < s then "beforeHours" else "afterHours"),
            none⟩

/- The scan loop of `getNextBusinessDay` (lines 617-665); the `Nat × Nat`
result is `(day, daysUntil)`.  `fuel` is the number of remaining
iterations, `30 - daysChecked`, so the loop guard `daysChecked < 30` is
`fuel > 0`. -/
def nextBusinessDayAux (cfg : BHConfig) :
    Nat → Nat → Nat → Nat × Nat
  | 0, nextDay, daysChecked => (nextDay, daysChecked)
  | fuel + 1, nextDay, daysChecked =>
    if isHolidayB cfg nextDay then
      nextBusinessDayAux cfg fuel (nextDay + 1) (daysChecked + 1)
    else
      match cfg.weekly (dow nextDay) with
      | some _ => (nextDay, daysChecked + 1)
      | none => nextBusinessDayAux cfg fuel (nextDay + 1) (daysChecked + 1)

def getNextBusinessDayB (cfg : BHConfig) (fromDay : Nat) : Nat × Nat :=
  nextBusinessDayAux cfg 30 (fromDay + 1) 0

/- `getAutoReplyMessage` (lines 670-701).  `status.holidayName` is
`undefined` when the first branch is taken for a non-holiday closure, and
JavaScript's `.replace` then inserts the string "undefined". -/
def getAutoReplyMessageB (cfg : BHConfig) (dt : BHDateTime) :
    Option String :=
  let status := isBusinessHoursB cfg dt
  if status.isOpen then none
  else
    let nbd := getNextBusinessDayB cfg dt.day
    if status.reason == some "holiday" || nbd.2 > 1 then
      some (jsReplace
        (jsReplace cfg.templates.holiday "{holidayName}"
          (jsStrOfOption status.holidayName))
        "{nextBusinessDay}" (cfg.fmtLong nbd.1))
    else if status.reason == some "weekend" || nbd.2 > 2 then
      some (jsReplace
        (jsReplace cfg.templates.weekendOrExtended "{reason}"
          "Estamos fuera del horario de atencion")
        "{nextBusinessDay}" (cfg.fmtLong nbd.1))
    else some cfg.templates.outOfHours

/- Which template a reply is rendered from. -/
inductive ReplyKind
  | holidayT
  | weekendExtT
  | outOfHoursT
deriving DecidableEq

/- The string the source builds for each template choice. -/
def renderChoice (cfg : BHConfig) (dt : BHDateTime) : ReplyKind → String
  | .holidayT =>
    jsReplace
      (jsReplace cfg.templates.holiday "{holidayName}"
        (jsStrOfOption (isBusinessHoursB cfg dt).holidayName))
      "{nextBusinessDay}" (cfg.fmtLong (getNextBusinessDayB cfg dt.day).1)
  | .weekendExtT =>
    jsReplace
      (jsReplace cfg.templates.weekendOrExtended "{reason}"
        "Estamos fuera del horario de atencion")
      "{nextBusinessDay}" (cfg.fmtLong (getNextBusinessDayB cfg dt.day).1)
  | .outOfHoursT => cfg.templates.outOfHours

/- Template selection exactly as the claim words it: holiday template iff
the closure reason is holiday or the next business day is more than 1 day
away; otherwise weekend/extended iff the next business day is more than
2 days away; otherwise the plain out-of-hours template; nothing when
open. -/
def specAutoReplyChoice (cfg : BHConfig) (dt : BHDateTime) :
    Option ReplyKind :=
  let status := isBusinessHoursB cfg dt
  if status.isOpen then none
  else
    let nbd := getNextBusinessDayB cfg dt.day
    if status.reason == some "holiday" || nbd.2 > 1 then some .holidayT
    else if nbd.2 > 2 then some .weekendExtT
    else some .outOfHoursT

/- The amended selection rule: as the claim, except that the
weekend/extended template is chosen exactly when the closure reason is
weekend or the next business day is more than 2 days away. -/
def amendedAutoReplyChoice (cfg : BHConfig) (dt : BHDateTime) :
    Option ReplyKind :=
  let status := isBusinessHoursB cfg dt
  if status.isOpen then none
  else
    let nbd := getNextBusinessDayB cfg dt.day
    if status.reason == some "holiday" || nbd.2 > 1 then some .holidayT
    else if status.reason == some "weekend" || nbd.2 > 2 then
      some .weekendExtT
    else some .outOfHoursT

/- Concrete configuration for the counterexample: the default schedule
(Mon-Fri 08:00-16:00, no holidays) with distinguishable templates, and a
Sunday 10:00 timestamp (day 7: 7 % 7 = 0 = Sunday). -/
def cfgW : BHConfig :=
  { weekly := fun d =>
      if d.val = 0 || d.val = 6 then none else some (800, 1600)
    holidays := []
    exceptionalClosures := []
    templates :=
      { holiday := "H {holidayName} {nextBusinessDay}"
        weekendOrExtended := "W {nextBusinessDay}"
        outOfHours := "O" }
    fmtLong := fun d => toString d }

def dtSunday : BHDateTime := { day := 7, time := 1000 }

/-!
## AutoReplyService (autoReplyService.js)

Timers created by `setTimeout` in `scheduleAutoReply` are kept in a list
in creation order; `pendingReplies` for the single conversation of the
scenario is the optional index of the timer currently held in the map.  A
timer marked `cancelled` was `clearTimeout`-ed and never runs; `fired`
records that its callback ran.
-/

structure ARTimer where
  fireAt : Nat
  cancelled : Bool
  fired : Bool
deriving DecidableEq

structure ARState where
  timers : List ARTimer
  pending : Option Nat
  repliedAt : Option Nat
  sent : List Nat
deriving DecidableEq

def replyTimeoutMs : Nat := 3600000
def replyDelayMs : Nat := 5000

/- `hasRecentlyReplied` (lines 149-155): note `if (!lastReply)` treats a
stored timestamp of 0 as absent. -/
def hasRecentlyRepliedB (repliedAt : Option Nat) (now : Nat) : Bool :=
  match repliedAt with
  | none => false
  | some t => if t = 0 then false else decide (now - t < replyTimeoutMs)

/- `cancelPendingReply` (lines 104-111). -/
def cancelPendingReply (s : ARState) : ARState :=
  match s.pending with
  | some i =>
    match s.timers.get? i with
    | some t =>
      { s with timers := s.timers.set i { t with cancelled := true },
               pending := none }
    | none => { s with pending := none }
  | none => s

/- `scheduleAutoReply` (lines 66-99): creates the timer and stores its
handle in `pendingReplies`. -/
def scheduleAutoReply (s : ARState) (now : Nat) : ARState :=
  { s with
    timers := s.timers ++ [⟨now + replyDelayMs, false, false⟩],
    pending := some s.timers.length }

/- One inbound message as the handler observes it: `message.from` (absent
to model a malformed message whose field access throws), `message.fromMe`,
and the `businessHours.getAutoReplyMessage()` call, which may itself
fail. -/
structure MsgEnv where
  msgFrom : Option String
  fromMe : Bool
  businessCall : Except String (Option String)

/- Body of the `try` of `handleIncomingMessage` (lines 20-57). -/
def handleIncomingMessageBody (s : ARState) (env : MsgEnv) (now : Nat) :
    Except String ARState :=
  match env.msgFrom with
  | none => Except.error "TypeError: cannot read properties of undefined"
  | some f =>
    if includesB f "@g.us" then Except.ok s
    else if env.fromMe then Except.ok s
    else
      let s1 := cancelPendingReply s
      match env.businessCall with
      | Except.error e => Except.error e
      | Except.ok none => Except.ok s1
      | Except.ok (some _) =>
        if hasRecentlyRepliedB s1.repliedAt now then Except.ok s1
        else Except.ok (scheduleAutoReply s1 now)

/- `handleIncomingMessage` with its catch (lines 58-60): the error is
logged and the handler returns normally, leaving the state as it was. -/
def handleIncomingMessage (s : ARState) (env : MsgEnv) (now : Nat) :
    Except String ARState :=
  match handleIncomingMessageBody s env now with
  | Except.ok s1 => Except.ok s1
  | Except.error _ => Except.ok s

def handleIncomingTotal (s : ARState) (env : MsgEnv) (now : Nat) :
    ARState :=
  match handleIncomingMessage s env now with
  | Except.ok s1 => s1
  | Except.error _ => s

/- The `setTimeout` callback of `scheduleAutoReply` (lines 69-95) for
timer `i`, run at its scheduled time: a cancelled or already-run timer
never fires; otherwise the suppression window is re-checked, the reply is
sent and recorded, and the `finally` clears the map entry. -/
def fireTimerAt (s : ARState) (i : Nat) : ARState :=
  match s.timers.get? i with
  | none => s
  | some t =>
    if t.cancelled || t.fired then s
    else
      let now := t.fireAt
      if hasRecentlyRepliedB s.repliedAt now then
        { s with timers := s.timers.set i { t with fired := true },
                 pending := none }
      else
        { s with timers := s.timers.set i { t with fired := true },
                 repliedAt := some now,
                 sent := s.sent ++ [now],
                 pending := none }

/- Let every remaining live timer fire at its scheduled time, in creation
(= scheduling-time) order. -/
def runTimers (s : ARState) : ARState :=
  (List.range s.timers.length).foldl fireTimerAt s

/- Timers that are live (scheduled, not cancelled, not yet run). -/
def activeTimers (s : ARState) : Nat :=
  (s.timers.filter (fun t => !t.cancelled && !t.fired)).length

/- The debounce scenario: one closed-hours conversation, inbound messages
at T = 0 ms, T+2000 ms and T+3000 ms, replyDelay 5000 ms, no prior
reply. -/
def arEnvW : MsgEnv :=
  { msgFrom := some "34600111222@s.whatsapp.net"
    fromMe := false
    businessCall := Except.ok (some "fuera de horario") }

def arS0 : ARState := { timers := [], pending := none, repliedAt := none,
                        sent := [] }
def arS1 : ARState := handleIncomingTotal arS0 arEnvW 0
def arS2 : ARState := handleIncomingTotal arS1 arEnvW 2000
def arS3 : ARState := handleIncomingTotal arS2 arEnvW 3000
def arFinal : ARState := runTimers arS3

/- Concrete environment for the undefined-acknowledgment scenario: a valid
recipient that exists on the channel, a send call that resolves with
`undefined` and no error, and a chat-tail query that fails. -/
def sendEnvW : SendEnv :=
  { ensureStable1 := Except.ok ()
    ensureStableV := Except.ok ()
    getNumberId := fun _ => Except.ok (some "34612345678@c.us")
    ensureStableRetry := fun _ => Except.ok ()
    sendCall := Except.ok none
    getChat := Except.error "chat fetch failed"
    nowBefore := 1700000000000 }

/-!
# Theorems
-/

/-- C5: the claim says that after an `auth_failure` event, with no external
re-authentication, no automatic reconnection is ever scheduled, and the
source's own comment ("En caso de error de auth, no intentar reconexión
automática") documents the same intent; but in the state left by the
`auth_failure` handlers (not ready, not stable, not reconnecting) the very
next periodic health check calls `initiateReconnection`, which schedules a
reconnection attempt with the initial 30000 ms delay.  This theorem
evaluates the code at that failing input, exhibiting the divergence. -/
theorem claim5_health_check_reconnects_after_auth_failure :
    healthCheckInitiates postAuthFailure = true ∧
    (initiateReconnection postAuthFailure).2 = some 30000 := by
  constructor
  · rfl
  · rfl

/-- C8: three inbound messages on one closed-hours conversation at T,
T+2 s and T+3 s with replyDelay 5 s and no prior reply: each later message
cancels the pending timer and reschedules (timers for T+5 s and T+7 s are
created and then cancelled, the timer for T+8 s survives), the
conversation holds at most one live pending timer after every step, and
exactly one auto-reply fires, at T+8 s. -/
theorem claim8_debounce_scenario :
    arS1.timers.map ARTimer.fireAt = [5000] ∧
    arS2.timers.map ARTimer.fireAt = [5000, 7000] ∧
    arS2.timers.map ARTimer.cancelled = [true, false] ∧
    arS3.timers.map ARTimer.fireAt = [5000, 7000, 8000] ∧
    arS3.timers.map ARTimer.cancelled = [true, true, false] ∧
    activeTimers arS1 = 1 ∧ activeTimers arS2 = 1 ∧ activeTimers arS3 = 1 ∧
    arFinal.sent = [8000] := by
  decide

/-- C7 counterexample: on a Sunday at 10:00 under the default schedule
(next business day Monday, 1 day away, closure reason "weekend"), the
claim's selection rule picks the plain out-of-hours template, but
`getAutoReplyMessage` returns the weekend/extended template — the code's
second branch also fires on `reason === "weekend"`, which the claim's
"more than 2 days away" condition does not cover. -/
theorem claim7_counterexample_sunday :
    getAutoReplyMessageB cfgW dtSunday = some "W 8" ∧
    (specAutoReplyChoice cfgW dtSunday).map (renderChoice cfgW dtSunday)
      = some "O" ∧
    getAutoReplyMessageB cfgW dtSunday ≠
      (specAutoReplyChoice cfgW dtSunday).map (renderChoice cfgW dtSunday) := by
  refine ⟨rfl, rfl, ?_⟩
  decide

/-- C7 amended: for every configuration and timestamp,
`getAutoReplyMessage` returns nothing when open, and otherwise renders the
holiday template exactly when the closure reason is holiday or the next
business day is more than 1 day away; otherwise the weekend/extended
template exactly when the closure reason is weekend or the next business
day is more than 2 days away; otherwise the plain out-of-hours
template. -/
theorem claim7_amended_selection :
    ∀ (cfg : BHConfig) (dt : BHDateTime),
      getAutoReplyMessageB cfg dt =
        (amendedAutoReplyChoice cfg dt).map (renderChoice cfg dt) := by
  intro cfg dt
  unfold getAutoReplyMessageB amendedAutoReplyChoice renderChoice
  dsimp only
  split
  · rfl
  · split
    · rfl
    · split
      · rfl
      · rfl

/- Invariant of a reconnection run: starting from any attempt counter
`a ≤ 5`, the delays scheduled along the run are exactly
`min(30000 * 2 ^ (a + i), 300000)` for `i = 0, 1, ...`, and at most
`5 - a` of them are scheduled. -/
theorem runDelays_formula (es : List RunEvent) :
    ∀ s : MonState, s.reconnectionAttempts ≤ 5 →
      ∃ k, s.reconnectionAttempts + k ≤ 5 ∧
        runDelays s es = (List.range k).map
          (fun i =>
            min (reconnectionDelayMs * 2 ^ (s.reconnectionAttempts + i))
              maxReconnectionDelayMs) := by
  induction es with
  | nil => exact fun s h => ⟨0, by omega, rfl⟩
  | cons e es ih =>
    intro s h
    cases e with
    | attemptFailed =>
      obtain ⟨k, hk, heq⟩ := ih { s with isReconnecting := false } h
      exact ⟨k, hk, heq⟩
    | signal =>
      by_cases hr : s.isReconnecting
      · obtain ⟨k, hk, heq⟩ := ih s h
        refine ⟨k, hk, ?_⟩
        simpa [runDelays, runStep, initiateReconnection, hr] using heq
      · by_cases ha : s.reconnectionAttempts ≥ maxReconnectionAttempts
        · obtain ⟨k, hk, heq⟩ := ih s h
          refine ⟨k, hk, ?_⟩
          simpa [runDelays, runStep, initiateReconnection, hr, ha] using heq
        · obtain ⟨k, hk, heq⟩ :=
            ih { s with reconnectionAttempts := s.reconnectionAttempts + 1,
                        isReconnecting := true }
              (by simp [maxReconnectionAttempts] at ha ⊢; omega)
          refine ⟨k + 1, by simp at hk; omega, ?_⟩
          simp only [runDelays, runStep, initiateReconnection, hr, ha,
            if_false, if_neg, ge_iff_le, Bool.false_eq_true]
          rw [List.range_succ_eq_map, List.map_cons, List.map_map]
          simp only [heq] at *
          congr 1
          apply List.map_congr_left
          intro i _
          have hadd : s.reconnectionAttempts + 1 + i
              = s.reconnectionAttempts + (i + 1) := by omega
          simp [Function.comp, hadd]

/-- C1: for every run of consecutive disconnect or health-failure signals
with no intervening successful transition to Stable, starting from the
monitor's constructor state, `initiateReconnection` schedules at most 5
reconnection attempts, and the delay scheduled for attempt `i` (counting
from 0) is exactly `min(30000 ms * 2 ^ i, 300000 ms)`. -/
theorem claim1_backoff_schedule :
    ∀ es : List RunEvent, ∃ k, k ≤ 5 ∧
      runDelays initMon es =
        (List.range k).map (fun i => min (30000 * 2 ^ i) 300000) := by
  intro es
  obtain ⟨k, hk, heq⟩ := runDelays_formula es initMon (by decide)
  refine ⟨k, ?_, ?_⟩
  · simpa [initMon] using hk
  · rw [heq]
    apply List.map_congr_left
    intro i _
    simp [initMon, reconnectionDelayMs, maxReconnectionDelayMs]

/-- C4: for every sequence of `waitIfNeeded` calls (with `setDelay`
possibly reconfiguring the delay between calls) satisfying the physical
clock constraints, no two successively recorded `lastExecutionTime`
timestamps are closer together than the delay configured at the time of
the later call. -/
theorem claim4_rate_limiter_spacing :
    ∀ (cs : List CallObs) (last : Nat),
      validFrom last cs → spacedFrom last cs := by
  intro cs
  induction cs with
  | nil => intro last _; trivial
  | cons c cs ih =>
    intro last hv
    obtain ⟨h1, h2, h3⟩ := hv
    refine ⟨?_, ih c.now2 h3⟩
    by_cases hlt : c.now - last < c.delay
    · have hw : waitTime last c.delay c.now = c.delay - (c.now - last) := by
        simp [waitTime, hlt]
      rw [hw] at h2
      omega
    · have hw : waitTime last c.delay c.now = 0 := by
        simp [waitTime, hlt]
      rw [hw] at h2
      omega

/-- C4 witness: the spacing theorem applied to a concrete two-call
sequence with a runtime `setDelay` change between the calls. -/
theorem claim4_rate_limiter_spacing_witness :
    validFrom 0 [⟨1000, 0, 1000⟩, ⟨500, 1200, 1500⟩] ∧
    spacedFrom 0 [⟨1000, 0, 1000⟩, ⟨500, 1200, 1500⟩] :=
  ⟨by simp [validFrom, waitTime],
   claim4_rate_limiter_spacing [⟨1000, 0, 1000⟩, ⟨500, 1200, 1500⟩] 0
     (by simp [validFrom, waitTime])⟩

/-- C3 counterexample: the claim states that every successful result of
`formatSpanishNumber` is exactly the country code "34" followed by 9
digits, but the code only checks length 11 and the "34" prefix: the input
"34abcdefghi" is returned unchanged even though its tail is not made of
digits. -/
theorem claim3_counterexample_nondigits :
    formatSpanishNumber "34abcdefghi" = Except.ok "34abcdefghi" ∧
    specCountryCodePlus9Digits "34abcdefghi" = false := by
  exact ⟨rfl, rfl⟩

/-- C3 amended: `formatSpanishNumber` maps "612345678" to "34612345678"
and "0034612345678" to "34612345678", throws a validation error on "123",
and for every input, when it returns successfully the returned string has
length exactly 11 and starts with the country code "34" (the code does not
check that the remaining 9 characters are digits). -/
theorem claim3_amended_format :
    formatSpanishNumber "612345678" = Except.ok "34612345678" ∧
    formatSpanishNumber "0034612345678" = Except.ok "34612345678" ∧
    formatSpanishNumber "123"
      = Except.error "Invalid Spanish number format: 123" ∧
    ∀ phone r, formatSpanishNumber phone = Except.ok r →
      r.length = 11 ∧ jsStartsWith r "34" = true := by
  refine ⟨rfl, rfl, rfl, ?_⟩
  intro phone r h
  unfold formatSpanishNumber at h
  split at h
  · simp at h
  · next hc =>
      simp only [Except.ok.injEq] at h
      subst h
      simp only [Bool.or_eq_true, decide_eq_true_eq, Bool.not_eq_true'] at hc
      push_neg at hc
      exact ⟨hc.1, by simpa using hc.2⟩

/-- C3 witness: the universal part of the amended claim applied to the
concrete input "612345678". -/
theorem claim3_amended_format_witness :
    formatSpanishNumber "612345678" = Except.ok "34612345678" ∧
    ("34612345678".length = 11 ∧ jsStartsWith "34612345678" "34" = true) :=
  ⟨claim3_amended_format.1,
   claim3_amended_format.2.2.2 "612345678" "34612345678"
     claim3_amended_format.1⟩

/-- C9: the reconnection attempt counter is reset to 0 only on a
successful transition to the stable/open state, in both engines: in the
Baileys `connection.update` handler every step that zeroes a nonzero
`reconnectAttempts` is the `open` transition, which in the same step marks
the session ready and stable; and in the ConnectionMonitor every event
step that zeroes a nonzero `reconnectionAttempts` is the `ready` (i.e.
successful-connection) event. -/
theorem claim9_counter_reset_only_on_stable :
    (∀ (s : BSState) (u : ConnUpdate),
      (onConnectionUpdate s u).reconnectAttempts = 0 →
        s.reconnectAttempts = 0 ∨
          (u = ConnUpdate.connOpen ∧
            (onConnectionUpdate s u).isStable = true ∧
            (onConnectionUpdate s u).isReady = true)) ∧
    (∀ (s : MonState) (e : MonEvent),
      (monStep s e).reconnectionAttempts = 0 →
        s.reconnectionAttempts = 0 ∨ e = MonEvent.ready) := by
  constructor
  · intro s u h
    cases u with
    | connOpen => exact Or.inr ⟨rfl, rfl, rfl⟩
    | connClose code =>
      left
      simp only [onConnectionUpdate] at h
      repeat' split at h
      all_goals first
        | exact h
        | simp_all
  · intro s e h
    cases e with
    | ready => exact Or.inr rfl
    | authFailure => exact Or.inl h
    | attemptFailed => exact Or.inl h
    | disconnected =>
      left
      simp only [monStep, initiateReconnection] at h
      repeat' split at h
      all_goals first
        | exact h
        | simp_all
    | healthSignal =>
      left
      simp only [monStep, initiateReconnection] at h
      repeat' split at h
      all_goals first
        | exact h
        | simp_all

/-- C9 witness: the reset invariant applied at concrete inputs — the
Baileys `open` update on a state with 3 failed attempts, and the monitor
`ready` event on a state with 2 attempts. -/
theorem claim9_counter_reset_only_on_stable_witness :
    ((onConnectionUpdate ⟨false, true, false, 3⟩
        ConnUpdate.connOpen).reconnectAttempts = 0) ∧
    ((⟨false, true, false, (3 : Nat)⟩ : BSState).reconnectAttempts = 0 ∨
      (ConnUpdate.connOpen = ConnUpdate.connOpen ∧
        (onConnectionUpdate ⟨false, true, false, 3⟩
          ConnUpdate.connOpen).isStable = true ∧
        (onConnectionUpdate ⟨false, true, false, 3⟩
          ConnUpdate.connOpen).isReady = true)) ∧
    ((⟨false, false, false, (2 : Nat)⟩ : MonState).reconnectionAttempts = 0 ∨
      MonEvent.ready = MonEvent.ready) :=
  ⟨rfl,
   claim9_counter_reset_only_on_stable.1 ⟨false, true, false, 3⟩
     ConnUpdate.connOpen rfl,
   claim9_counter_reset_only_on_stable.2 ⟨false, false, false, 2⟩
     MonEvent.ready rfl⟩

/-- C2: for every environment (that is, every behaviour of the transport
and of the connection-stability calls), every phone number and every
message body, `sendMessage` returns a result — one of the three tagged
outcomes Sent, NO_WHATSAPP or SEND_ERROR — and never propagates an
exception to the caller, so a batch caller can continue past any single
job's failure. -/
theorem claim2_send_never_throws :
    ∀ (env : SendEnv) (phone message : String),
      ∃ r, sendMessage env phone message = Except.ok r ∧
        ((∃ f mid vm, r = SendResult.sent f mid vm) ∨
         (∃ e, r = SendResult.noWhatsapp e) ∨
         (∃ e, r = SendResult.sendError e)) := by
  intro env phone message
  have hr : ∃ r, sendMessage env phone message = Except.ok r := by
    unfold sendMessage
    cases h : sendMessageBody env phone message with
    | ok r => exact ⟨r, rfl⟩
    | error e => exact ⟨SendResult.sendError e, rfl⟩
  obtain ⟨r, hr⟩ := hr
  refine ⟨r, hr, ?_⟩
  cases r with
  | sent f mid vm => exact Or.inl ⟨f, mid, vm, rfl⟩
  | noWhatsapp e => exact Or.inr (Or.inl ⟨e, rfl⟩)
  | sendError e => exact Or.inr (Or.inr ⟨e, rfl⟩)

/-- C6: for every send job with a valid recipient that exists on the
channel, if the transport send call returns no acknowledgment object
(`undefined`) and raises no error, then whenever chat-tail verification is
inconclusive or fails, `sendMessage` returns a Sent result whose
`verificationMethod` indicates the no-error assumption
("no_error_assumption" when the chat tail was read but did not match,
"send_no_error" when reading the chat tail itself failed). -/
theorem claim6_no_ack_assumed_sent :
    ∀ (env : SendEnv) (phone message : String) (v : VResult),
      env.ensureStable1 = Except.ok () →
      validateWhatsAppNumber env phone = some v →
      v.valid = true →
      env.sendCall = Except.ok none →
      (∀ chat, env.getChat = Except.ok chat →
        isOurMessage chat message env.nowBefore = false) →
      ∃ mid method,
        sendMessage env phone message =
          Except.ok (SendResult.sent v.formattedNumber mid method) ∧
        (method = "no_error_assumption" ∨ method = "send_no_error") := by
  intro env phone message v h1 h2 h3 h4 h5
  cases hg : env.getChat with
  | ok chat =>
    refine ⟨"assumed_success", "no_error_assumption", ?_, Or.inl rfl⟩
    simp [sendMessage, sendMessageBody, sendInner, verificationOutcome,
      h1, h2, h3, h4, hg, h5 chat hg]
  | error e =>
    refine ⟨"unverified_success", "send_no_error", ?_, Or.inr rfl⟩
    simp [sendMessage, sendMessageBody, sendInner, verificationOutcome,
      h1, h2, h3, h4, hg]

/-- C6 witness: the no-acknowledgment theorem applied to a concrete
environment in which the recipient "612345678" is valid and registered,
the send call resolves with `undefined`, and the chat-tail query fails. -/
theorem claim6_no_ack_assumed_sent_witness :
    (sendEnvW.ensureStable1 = Except.ok ()) ∧
    (validateWhatsAppNumber sendEnvW "612345678"
      = some ⟨true, some "34612345678", some "34612345678@c.us", none⟩) ∧
    (sendEnvW.sendCall = Except.ok none) ∧
    (∃ mid method,
      sendMessage sendEnvW "612345678" "hola" =
        Except.ok (SendResult.sent (some "34612345678") mid method) ∧
      (method = "no_error_assumption" ∨ method = "send_no_error")) :=
  ⟨rfl, rfl, rfl,
   claim6_no_ack_assumed_sent sendEnvW "612345678" "hola"
     ⟨true, some "34612345678", some "34612345678@c.us", none⟩
     rfl rfl rfl rfl
     (fun chat hc => by simp [sendEnvW] at hc)⟩

/-- C10: for every inbound message object — including malformed ones whose
field access throws, and runs in which the business-hours lookup itself
raises — `handleIncomingMessage` returns normally: every error raised
inside its body is caught (and logged), and no exception reaches the
transport's message event loop. -/
theorem claim10_handle_incoming_never_throws :
    ∀ (s : ARState) (env : MsgEnv) (now : Nat),
      ∃ s1, handleIncomingMessage s env now = Except.ok s1 := by
  intro s env now
  unfold handleIncomingMessage
  cases h : handleIncomingMessageBody s env now with
  | ok s1 => exact ⟨s1, rfl⟩
  | error e => exact ⟨s, rfl⟩
